import Mathlib

/-!
Verification of the `agentropic` facade crate (`src/lib.rs`).

The crate contains three declarations:

  pub use agentropic_core as core;
  pub use agentropic_messaging as messaging;
  pub mod prelude {
      pub use agentropic_core::prelude::*;
      pub use agentropic_messaging::prelude::*;
  }

We embed the Rust name-resolution semantics relevant to these declarations:
crate aliasing (`pub use crate as name`), glob re-exports with the
glob-ambiguity rule (a name supplied by two globs with different targets is
ambiguous and unusable), and the shadowing of the extern prelude by explicit
bindings.  The two referenced components are not part of the repository, so
every theorem is parameterised over arbitrary component interfaces.
-/

/-- An item of some crate, identified by the crate that defines it and its
definition path inside that crate. -/
structure Item where
  defCrate : String
  defPath : List String
deriving DecidableEq, Repr

/-- The public interface of an external crate: the symbols exported at its
root and its public submodules, each with the symbols it exports. -/
structure CrateAPI where
  rootSymbols : List (String × Item)
  modules : List (String × List (String × Item))
deriving DecidableEq, Repr

/-- First-match association lookup, the order in which rustc considers
bindings of a namespace. -/
def lookupA {α : Type} : List (String × α) → String → Option α
  | [], _ => none
  | (k, v) :: rest, n => if k = n then some v else lookupA rest n

/-- The exports of a crate's public submodule, if the module exists. -/
def lookupMod (api : CrateAPI) (md : String) : Option (List (String × Item)) :=
  lookupA api.modules md

/-- The exports of a crate's `prelude` submodule, if it has one. -/
def preludeOf (api : CrateAPI) : Option (List (String × Item)) :=
  lookupMod api "prelude"

/-- Every public symbol of a crate: the root symbols together with the
symbols of all public submodules. -/
def CrateAPI.fullPub (api : CrateAPI) : List (String × Item) :=
  api.rootSymbols ++ (api.modules.map Prod.snd).flatten

/-- A Rust item declaration, restricted to the forms the facade could
contain: re-export declarations, and own-item forms (functions, type
definitions, statics) that would introduce logic of the crate's own. -/
inductive Decl where
  | useAs : List String → String → Decl
  | modGlobs : String → List (List String) → Decl
  | fnDecl : String → Decl
  | structDecl : String → Decl
  | staticDecl : String → Decl
deriving DecidableEq, Repr

/-- The declaration list of `src/lib.rs`. -/
def libDecls : List Decl :=
  [ Decl.useAs ["agentropic_core"] "core",
    Decl.useAs ["agentropic_messaging"] "messaging",
    Decl.modGlobs "prelude"
      [["agentropic_core", "prelude"], ["agentropic_messaging", "prelude"]] ]

/-- Whether a declaration is pure re-export glue (a `use` alias or a module
made of glob re-exports) rather than an item of the crate's own. -/
def Decl.isReexport : Decl → Bool
  | Decl.useAs _ _ => true
  | Decl.modGlobs _ _ => true
  | _ => false

/-- Runtime contribution of one declaration, with the state passed
explicitly: `use` and glob-module declarations are resolved entirely at
build time and perform nothing at runtime; only own items with bodies
could touch the state, through the given effect interpretation. -/
def Decl.runtimeStep {σ : Type} (effects : String → σ → σ) : Decl → σ → σ
  | Decl.useAs _ _, s => s
  | Decl.modGlobs _ _, s => s
  | Decl.fnDecl n, s => effects n s
  | Decl.structDecl _, s => s
  | Decl.staticDecl n, s => effects n s

/-- Runtime contribution of the whole facade crate on a program state. -/
def runFacade {σ : Type} (effects : String → σ → σ) (s : σ) : σ :=
  libDecls.foldl (fun st d => Decl.runtimeStep effects d st) s

/-- What a name exported by the facade refers to. -/
inductive ExportTarget where
  | crateRef : String → ExportTarget
  | modGlobs : List (List (String × Item)) → ExportTarget
  | ownItem : ExportTarget
deriving DecidableEq, Repr

/-- The candidate targets a name receives from a list of glob imports. -/
def globCands (srcs : List (List (String × Item))) (n : String) : List Item :=
  srcs.filterMap (fun l => lookupA l n)

/-- Glob-import resolution: the name resolves when all globs that supply it
agree on the target; a name supplied with two different targets is
ambiguous and resolves to nothing. -/
def globResolveMany (srcs : List (List (String × Item))) (n : String) : Option Item :=
  match globCands srcs n with
  | [] => none
  | x :: rest => if rest.all (fun y => decide (y = x)) then some x else none

/-- Resolve a module path (`crate` or `crate::module`) to the list of
symbols it exports, in an environment of external crates. -/
def resolveModPath (env : List (String × CrateAPI)) : List String → Option (List (String × Item))
  | [c] => (lookupA env c).map (fun api => api.rootSymbols)
  | [c, md] => (lookupA env c).bind (fun api => lookupMod api md)
  | _ => none

/-- Resolve every glob path of a module body; a single unresolved path is a
build failure. -/
def resolveAllGlobs (env : List (String × CrateAPI)) : List (List String) → Option (List (List (String × Item)))
  | [] => some []
  | p :: ps =>
    match resolveModPath env p, resolveAllGlobs env ps with
    | some l, some ls => some (l :: ls)
    | _, _ => none

/-- Build-time elaboration of one declaration into a named export of the
facade.  A `use` alias requires its target crate to resolve; a glob module
requires every glob path to resolve; own items export themselves. -/
def elabDecl (env : List (String × CrateAPI)) : Decl → Option (String × ExportTarget)
  | Decl.useAs [c] n => (lookupA env c).map (fun _ => (n, ExportTarget.crateRef c))
  | Decl.useAs _ _ => none
  | Decl.modGlobs n globs =>
    (resolveAllGlobs env globs).map (fun srcs => (n, ExportTarget.modGlobs srcs))
  | Decl.fnDecl n => some (n, ExportTarget.ownItem)
  | Decl.structDecl n => some (n, ExportTarget.ownItem)
  | Decl.staticDecl n => some (n, ExportTarget.ownItem)

/-- Build-time elaboration of a declaration list; it fails exactly when some
referenced external path fails to resolve. -/
def elabFacade (env : List (String × CrateAPI)) : List Decl → Option (List (String × ExportTarget))
  | [] => some []
  | d :: ds =>
    match elabDecl env d, elabFacade env ds with
    | some e, some es => some (e :: es)
    | _, _ => none

/-- The crate environment of the facade: the two referenced components under
the names `lib.rs` uses for them. -/
def facadeEnv (c m : CrateAPI) : List (String × CrateAPI) :=
  [("agentropic_core", c), ("agentropic_messaging", m)]

/-- Path resolution in a scope holding the facade's exports, an environment
of referenced crates, and an extern prelude of built-in crates that an
explicit binding of the same name shadows.  Paths of the form `name::s` and
`name::module::s` resolve; a head name with no explicit binding falls back
to the extern prelude. -/
def resolveScoped (exps : List (String × ExportTarget))
    (env builtin : List (String × CrateAPI)) : List String → Option Item
  | [n, s] =>
    match lookupA exps n with
    | some (ExportTarget.crateRef cn) =>
      (lookupA env cn).bind (fun api => lookupA api.rootSymbols s)
    | some (ExportTarget.modGlobs srcs) => globResolveMany srcs s
    | some ExportTarget.ownItem => none
    | none => (lookupA builtin n).bind (fun api => lookupA api.rootSymbols s)
  | [n, md, s] =>
    match lookupA exps n with
    | some (ExportTarget.crateRef cn) =>
      (lookupA env cn).bind (fun api => (lookupMod api md).bind (fun l => lookupA l s))
    | some (ExportTarget.modGlobs _) => none
    | some ExportTarget.ownItem => none
    | none =>
      (lookupA builtin n).bind (fun api => (lookupMod api md).bind (fun l => lookupA l s))
  | _ => none

/-- Resolution of a path through the facade crate, with an extern prelude of
built-in crates in scope. -/
def resolveFacadeScoped (c m : CrateAPI) (builtin : List (String × CrateAPI))
    (path : List String) : Option Item :=
  match elabFacade (facadeEnv c m) libDecls with
  | some exps => resolveScoped exps (facadeEnv c m) builtin path
  | none => none

/-- Resolution of a path through the facade crate's public root. -/
def resolveFacade (c m : CrateAPI) (path : List String) : Option Item :=
  resolveFacadeScoped c m [] path

/-- Direct resolution of a path (`s` or `module::s`) against a component
crate, bypassing the facade. -/
def resolveInCrate (api : CrateAPI) : List String → Option Item
  | [s] => lookupA api.rootSymbols s
  | [md, s] => (lookupMod api md).bind (fun l => lookupA l s)
  | _ => none

/-- Union of two symbol lists under glob-import semantics: a name present in
both with different targets is ambiguous and yields nothing. -/
def globUnion (a b : List (String × Item)) (n : String) : Option Item :=
  match lookupA a n, lookupA b n with
  | some x, some y => if x = y then some x else none
  | some x, none => some x
  | none, some y => some y
  | none, none => none

/-- Statement of claim C1, taken from the spec's words: for every public
symbol of either referenced component, the facade's `prelude` namespace
exposes an equivalent accessible symbol. -/
def preludeCoversFullAPI (c m : CrateAPI) : Prop :=
  ∀ n it, ((n, it) ∈ c.fullPub ∨ (n, it) ∈ m.fullPub) →
    resolveFacade c m ["prelude", n] = some it

/-! ### Helper lemmas -/

lemma elabFacade_facade (c m : CrateAPI) (cp mp : List (String × Item))
    (hc : preludeOf c = some cp) (hm : preludeOf m = some mp) :
    elabFacade (facadeEnv c m) libDecls =
      some [("core", ExportTarget.crateRef "agentropic_core"),
            ("messaging", ExportTarget.crateRef "agentropic_messaging"),
            ("prelude", ExportTarget.modGlobs [cp, mp])] := by
  simp only [preludeOf, lookupMod] at hc hm
  simp [elabFacade, libDecls, elabDecl, resolveAllGlobs, resolveModPath,
        facadeEnv, lookupA, lookupMod, hc, hm]

lemma resolveFacade_prelude {c m : CrateAPI} {cp mp : List (String × Item)}
    (hc : preludeOf c = some cp) (hm : preludeOf m = some mp) (n : String) :
    resolveFacade c m ["prelude", n] = globResolveMany [cp, mp] n := by
  rw [resolveFacade, resolveFacadeScoped, elabFacade_facade c m cp mp hc hm]
  simp [resolveScoped, lookupA]

lemma globResolveMany_pair (a b : List (String × Item)) (n : String) :
    globResolveMany [a, b] n = globUnion a b n := by
  unfold globResolveMany globCands globUnion
  cases ha : lookupA a n <;> cases hb : lookupA b n <;>
      simp [List.filterMap_cons, ha, hb]
  rename_i x y
  by_cases h : x = y
  · subst h
    simp
  · rw [if_neg h, if_neg (fun hh => h hh.symm)]

lemma resolveFacade_core {c m : CrateAPI} {cp mp : List (String × Item)}
    (hc : preludeOf c = some cp) (hm : preludeOf m = some mp) (path : List String) :
    resolveFacade c m ("core" :: path) = resolveInCrate c path := by
  rw [resolveFacade, resolveFacadeScoped, elabFacade_facade c m cp mp hc hm]
  match path with
  | [] => rfl
  | [s] => simp [resolveScoped, resolveInCrate, lookupA, facadeEnv]
  | [md, s] => simp [resolveScoped, resolveInCrate, lookupA, facadeEnv, lookupMod]
  | a :: b :: x :: rest => rfl

lemma resolveFacade_messaging {c m : CrateAPI} {cp mp : List (String × Item)}
    (hc : preludeOf c = some cp) (hm : preludeOf m = some mp) (path : List String) :
    resolveFacade c m ("messaging" :: path) = resolveInCrate m path := by
  rw [resolveFacade, resolveFacadeScoped, elabFacade_facade c m cp mp hc hm]
  match path with
  | [] => rfl
  | [s] => simp [resolveScoped, resolveInCrate, lookupA, facadeEnv]
  | [md, s] => simp [resolveScoped, resolveInCrate, lookupA, facadeEnv, lookupMod]
  | a :: b :: x :: rest => rfl

lemma globUnion_some {a b : List (String × Item)} {n : String} {it : Item}
    (h : globUnion a b n = some it) :
    lookupA a n = some it ∨ lookupA b n = some it := by
  unfold globUnion at h
  cases ha : lookupA a n <;> cases hb : lookupA b n <;> rw [ha, hb] at h
  · exact Option.noConfusion h
  · exact Or.inr h
  · exact Or.inl h
  · rename_i x y
    by_cases hxy : x = y
    · subst hxy
      simp at h
      exact Or.inl (by rw [h])
    · simp [hxy] at h

/-! ### Concrete component interfaces for witnesses and counterexamples -/

/-- A core item exported both at the component root and from its prelude. -/
def itAgent : Item := ⟨"agentropic_core", ["Agent"]⟩

/-- A core item exported at the component root but not from its prelude. -/
def itRunner : Item := ⟨"agentropic_core", ["Runner"]⟩

/-- A messaging item exported from the messaging prelude. -/
def itMsg : Item := ⟨"agentropic_messaging", ["Envelope"]⟩

/-- A core item whose name collides with a messaging item. -/
def itSharedCore : Item := ⟨"agentropic_core", ["Context"]⟩

/-- A messaging item whose name collides with a core item. -/
def itSharedMsg : Item := ⟨"agentropic_messaging", ["Context"]⟩

/-- Prelude exports of the concrete core component. -/
def cpW : List (String × Item) := [("Agent", itAgent), ("Context", itSharedCore)]

/-- Prelude exports of the concrete messaging component. -/
def mpW : List (String × Item) := [("Envelope", itMsg), ("Context", itSharedMsg)]

/-- A concrete core component interface. -/
def cW : CrateAPI := ⟨[("Agent", itAgent), ("Runner", itRunner)], [("prelude", cpW)]⟩

/-- A concrete messaging component interface. -/
def mW : CrateAPI := ⟨[("Envelope", itMsg)], [("prelude", mpW)]⟩

/-- A stand-in for the built-in `core` crate of the standard library. -/
def builtinCoreW : CrateAPI := ⟨[("Option", ⟨"core", ["option", "Option"]⟩)], []⟩

/-- A component exporting `Agent` at its root but with an empty prelude. -/
def cEx : CrateAPI := ⟨[("Agent", itAgent)], [("prelude", [])]⟩

/-- A component with no root exports and an empty prelude. -/
def mEx : CrateAPI := ⟨[], [("prelude", [])]⟩

/-! ### Claims -/

/-- C1 (counterexample): the facade's prelude does not contain the union of
the full public symbol sets of the components: with agentropic_core
exporting `Agent` at its root but not from its own prelude, the facade's
prelude does not resolve `Agent`. -/
theorem preludeCoversFullAPI_false : ¬ preludeCoversFullAPI cEx mEx := fun h => by
  have h1 := h "Agent" itAgent (Or.inl (by simp [CrateAPI.fullPub, cEx]))
  have h2 : resolveFacade cEx mEx ["prelude", "Agent"] = none := by rfl
  rw [h2] at h1
  exact Option.noConfusion h1

/-- C1 (amended): for every name, the facade's `prelude` resolves it exactly
as the glob union of the two components' `prelude` modules — not of their
full public symbol sets: a name carried by one prelude (or by both, to the
same item) is exposed and denotes that item; a name carried by both
preludes with different items is ambiguous; names outside both preludes are
absent. -/
theorem facade_prelude_eq_union_of_component_preludes (c m : CrateAPI)
    (cp mp : List (String × Item))
    (hc : preludeOf c = some cp) (hm : preludeOf m = some mp) (n : String) :
    resolveFacade c m ["prelude", n] = globUnion cp mp n := by
  rw [resolveFacade_prelude hc hm n, globResolveMany_pair]

/-- C1 witness: at the concrete components, the facade prelude resolves
`Agent` exactly as the union of the two component preludes dictates. -/
theorem facade_prelude_eq_union_witness :
    resolveFacade cW mW ["prelude", "Agent"] = globUnion cpW mpW "Agent" :=
  facade_prelude_eq_union_of_component_preludes cW mW cpW mpW rfl rfl "Agent"

/-- C2: every access through the facade's `core` namespace denotes the same
item as direct access to agentropic_core, and every access through
`messaging` the same item as direct access to agentropic_messaging, with
nothing added and nothing hidden. -/
theorem facade_aliases_resolve_to_components (c m : CrateAPI)
    (cp mp : List (String × Item))
    (hc : preludeOf c = some cp) (hm : preludeOf m = some mp) :
    (∀ path, resolveFacade c m ("core" :: path) = resolveInCrate c path) ∧
    (∀ path, resolveFacade c m ("messaging" :: path) = resolveInCrate m path) :=
  ⟨fun path => resolveFacade_core hc hm path,
   fun path => resolveFacade_messaging hc hm path⟩

/-- C2 witness: at the concrete components, the facade path
`core::Runner` resolves exactly as direct access to agentropic_core. -/
theorem facade_aliases_resolve_witness :
    resolveFacade cW mW ["core", "Runner"] = resolveInCrate cW ["Runner"] :=
  (facade_aliases_resolve_to_components cW mW cpW mpW rfl rfl).1 ["Runner"]

/-- C3: a name exported by neither component prelude is not accessible
through the facade's prelude even when it is a root public symbol of a
component; such a symbol stays reachable through the `core` and `messaging`
aliases; and everything the facade prelude exposes comes from one of the
two component preludes. -/
theorem non_prelude_symbol_unreachable_via_facade_prelude
    (c m : CrateAPI) (cp mp : List (String × Item)) (n : String)
    (hc : preludeOf c = some cp) (hm : preludeOf m = some mp)
    (h1 : lookupA cp n = none) (h2 : lookupA mp n = none) :
    resolveFacade c m ["prelude", n] = none ∧
    (∀ it, lookupA c.rootSymbols n = some it →
      resolveFacade c m ["core", n] = some it) ∧
    (∀ it, lookupA m.rootSymbols n = some it →
      resolveFacade c m ["messaging", n] = some it) ∧
    (∀ nn it, resolveFacade c m ["prelude", nn] = some it →
      lookupA cp nn = some it ∨ lookupA mp nn = some it) := by
  refine ⟨?_, ?_, ?_, ?_⟩
  · rw [resolveFacade_prelude hc hm n, globResolveMany_pair]
    unfold globUnion
    rw [h1, h2]
  · intro it hit
    rw [resolveFacade_core hc hm [n]]
    simpa [resolveInCrate] using hit
  · intro it hit
    rw [resolveFacade_messaging hc hm [n]]
    simpa [resolveInCrate] using hit
  · intro nn it hres
    rw [resolveFacade_prelude hc hm nn, globResolveMany_pair] at hres
    exact globUnion_some hres

/-- C3 witness: `Runner`, public at agentropic_core's root but absent from
both preludes, is not accessible through the facade's prelude. -/
theorem non_prelude_symbol_unreachable_witness :
    resolveFacade cW mW ["prelude", "Runner"] = none :=
  (non_prelude_symbol_unreachable_via_facade_prelude
    cW mW cpW mpW "Runner" rfl rfl rfl rfl).1

/-- C4: the facade's public interface consists of exactly three items and no
others: the alias `core` for agentropic_core, the alias `messaging` for
agentropic_messaging, and the `prelude` aggregation module built from the
two components' prelude glob imports. -/
theorem facade_exports_exactly_three (c m : CrateAPI) (cp mp : List (String × Item))
    (hc : preludeOf c = some cp) (hm : preludeOf m = some mp) :
    elabFacade (facadeEnv c m) libDecls =
      some [("core", ExportTarget.crateRef "agentropic_core"),
            ("messaging", ExportTarget.crateRef "agentropic_messaging"),
            ("prelude", ExportTarget.modGlobs [cp, mp])] :=
  elabFacade_facade c m cp mp hc hm

/-- C4 witness: at the concrete components, elaboration yields exactly the
three exports. -/
theorem facade_exports_exactly_three_witness :
    elabFacade (facadeEnv cW mW) libDecls =
      some [("core", ExportTarget.crateRef "agentropic_core"),
            ("messaging", ExportTarget.crateRef "agentropic_messaging"),
            ("prelude", ExportTarget.modGlobs [cpW, mpW])] :=
  facade_exports_exactly_three cW mW cpW mpW rfl rfl

/-- C5: the facade introduces no error branch of its own: its elaboration
succeeds whenever the referenced component paths resolve, every path
through the aliases gives the exact result of using the component directly,
and every symbol the facade prelude yields is the result of direct access
to one of the components' prelude modules. -/
theorem facade_introduces_no_error (c m : CrateAPI) (cp mp : List (String × Item))
    (hc : preludeOf c = some cp) (hm : preludeOf m = some mp) :
    (elabFacade (facadeEnv c m) libDecls).isSome = true ∧
    (∀ path, resolveFacade c m ("core" :: path) = resolveInCrate c path) ∧
    (∀ path, resolveFacade c m ("messaging" :: path) = resolveInCrate m path) ∧
    (∀ n it, resolveFacade c m ["prelude", n] = some it →
      resolveInCrate c ["prelude", n] = some it ∨
      resolveInCrate m ["prelude", n] = some it) := by
  refine ⟨?_, fun path => resolveFacade_core hc hm path,
          fun path => resolveFacade_messaging hc hm path, ?_⟩
  · rw [elabFacade_facade c m cp mp hc hm]
    rfl
  · intro n it hres
    rw [resolveFacade_prelude hc hm n, globResolveMany_pair] at hres
    have hc2 : lookupMod c "prelude" = some cp := hc
    have hm2 : lookupMod m "prelude" = some mp := hm
    rcases globUnion_some hres with h | h
    · exact Or.inl (by simpa [resolveInCrate, hc2] using h)
    · exact Or.inr (by simpa [resolveInCrate, hm2] using h)

/-- C5 witness: at the concrete components, elaboration of the facade
succeeds. -/
theorem facade_introduces_no_error_witness :
    (elabFacade (facadeEnv cW mW) libDecls).isSome = true :=
  (facade_introduces_no_error cW mW cpW mpW rfl rfl).1

/-- C6: the facade has no observable runtime behavior of its own: running
its declarations on any program state, under any effect interpretation an
own item would have, leaves the state unchanged. -/
theorem facade_runtime_effect_free {σ : Type} (effects : String → σ → σ) (s : σ) :
    runFacade effects s = s := rfl

/-- C7: the facade contains zero original logic: every declaration of
lib.rs is a re-export, no export of the facade is an item of its own, and
every symbol its prelude exposes originates in one of the two components'
prelude modules. -/
theorem facade_zero_original_logic (c m : CrateAPI) (cp mp : List (String × Item))
    (hc : preludeOf c = some cp) (hm : preludeOf m = some mp) :
    (libDecls.all Decl.isReexport = true) ∧
    (∀ exps, elabFacade (facadeEnv c m) libDecls = some exps →
      ∀ p ∈ exps, p.2 ≠ ExportTarget.ownItem) ∧
    (∀ n it, resolveFacade c m ["prelude", n] = some it →
      lookupA cp n = some it ∨ lookupA mp n = some it) := by
  refine ⟨rfl, ?_, ?_⟩
  · intro exps hexps p hp
    rw [elabFacade_facade c m cp mp hc hm, Option.some_inj] at hexps
    subst hexps
    simp only [List.mem_cons, List.not_mem_nil, or_false] at hp
    rcases hp with h | h | h <;> subst h <;>
      exact fun hcon => ExportTarget.noConfusion hcon
  · intro n it hres
    rw [resolveFacade_prelude hc hm n, globResolveMany_pair] at hres
    exact globUnion_some hres

/-- C7 witness: every declaration of lib.rs is a re-export. -/
theorem facade_zero_original_logic_witness :
    libDecls.all Decl.isReexport = true :=
  (facade_zero_original_logic cW mW cpW mpW rfl rfl).1

/-- C8: a name exported by both component preludes to different items is
made ambiguous by the two glob re-exports, so it is not accessible through
the facade's prelude. -/
theorem colliding_prelude_name_is_ambiguous (c m : CrateAPI)
    (cp mp : List (String × Item)) (n : String) (x y : Item)
    (hc : preludeOf c = some cp) (hm : preludeOf m = some mp)
    (hx : lookupA cp n = some x) (hy : lookupA mp n = some y) (hxy : x ≠ y) :
    resolveFacade c m ["prelude", n] = none := by
  rw [resolveFacade_prelude hc hm n, globResolveMany_pair]
  simp [globUnion, hx, hy, hxy]

/-- C8 witness: `Context`, exported by both concrete preludes to different
items, is not accessible through the facade's prelude. -/
theorem colliding_prelude_name_witness :
    resolveFacade cW mW ["prelude", "Context"] = none :=
  colliding_prelude_name_is_ambiguous cW mW cpW mpW "Context"
    itSharedCore itSharedMsg rfl rfl rfl rfl (by decide)

/-- C9: the facade's explicit binding `core` shadows the built-in `core`
crate: with a built-in crate of that name in scope, the facade path
`core::s` resolves in agentropic_core for every symbol s, while the same
path in a scope without the facade's binding resolves in the built-in
crate. -/
theorem core_alias_shadows_builtin_core (c m : CrateAPI)
    (cp mp : List (String × Item)) (b : CrateAPI)
    (hc : preludeOf c = some cp) (hm : preludeOf m = some mp) :
    (∀ s, resolveFacadeScoped c m [("core", b)] ["core", s] =
      lookupA c.rootSymbols s) ∧
    (∀ s, resolveScoped [] (facadeEnv c m) [("core", b)] ["core", s] =
      lookupA b.rootSymbols s) := by
  constructor
  · intro s
    rw [resolveFacadeScoped, elabFacade_facade c m cp mp hc hm]
    simp [resolveScoped, lookupA, facadeEnv]
  · intro s
    simp [resolveScoped, lookupA]

/-- C9 witness: with a stand-in built-in `core` crate in scope, the facade
path `core::Runner` resolves in agentropic_core. -/
theorem core_alias_shadows_builtin_core_witness :
    resolveFacadeScoped cW mW [("core", builtinCoreW)] ["core", "Runner"] =
      lookupA cW.rootSymbols "Runner" :=
  (core_alias_shadows_builtin_core cW mW cpW mpW builtinCoreW rfl rfl).1 "Runner"
